import Mathlib

/-!
Verification development for the supervisor-agent request safety pipeline of
the Visionary-AI-App repository.

Python strings are modelled as `List Char` (ASCII inputs; `str.lower` is
modelled on the ASCII letters).  Python `time.time()` values are modelled as
rationals.  Regular-expression patterns appearing in the source are fixed
word-bounded keyword alternations; they are modelled by an explicit
word-boundary scanner over the expanded alternation lists.
-/

set_option maxRecDepth 4000

/-- Python strings, modelled as lists of characters. -/
abbrev Str := List Char

/-- Turn a Lean string literal into the `Str` model. -/
def lit (s : String) : Str := s.data

/-- ASCII lower-casing of one character, as `str.lower` acts on ASCII. -/
def toLowerCh (c : Char) : Char :=
  if 'A' ≤ c ∧ c ≤ 'Z' then Char.ofNat (c.toNat + 32) else c

/-- ASCII lower-casing of a string. -/
def toLowerStr (s : Str) : Str := s.map toLowerCh

/-- Is `c` a lower-case ASCII letter (the character class of the
tokenizing pattern, a lower-case alphabetic run, applied to lowered text). -/
def isLowerAlpha (c : Char) : Bool := decide ('a' ≤ c ∧ c ≤ 'z')

/-- Python whitespace for `str.strip` / `str.split` (ASCII). -/
def pyIsSpace (c : Char) : Bool :=
  c = ' ' || c = '\t' || c = '\n' || c = '\r' || c = Char.ofNat 0x0b || c = Char.ofNat 0x0c

/-- Maximal runs of characters satisfying `p` (auxiliary, accumulator holds
the current run reversed). -/
def runsByAux (p : Char → Bool) : Str → Str → List Str
  | [], acc => if acc = [] then [] else [acc.reverse]
  | c :: rest, acc =>
      if p c then runsByAux p rest (c :: acc)
      else if acc = [] then runsByAux p rest []
      else acc.reverse :: runsByAux p rest []

/-- Maximal runs of characters satisfying `p`; splitting a string at the
characters that fail `p`, dropping empties. -/
def runsBy (p : Char → Bool) (s : Str) : List Str := runsByAux p s []

/-- The token set of a message: distinct lower-case alphabetic runs of the
lowered text, modelling the set of matches of the alphabetic-run pattern. -/
def tokenSet (s : Str) : List Str := (runsBy isLowerAlpha (toLowerStr s)).dedup

/-- Python `str.split()` with no argument: whitespace-separated words. -/
def pySplitWS (s : Str) : List Str := runsBy (fun c => !pyIsSpace c) s

/-- Substring containment, modelling the Python `in` operator on strings. -/
def containsSeq : Str → Str → Bool
  | needle, [] => needle = []
  | needle, c :: rest => needle.isPrefixOf (c :: rest) || containsSeq needle rest

/-- Python `str.strip()` on ASCII whitespace. -/
def pyStrip (s : Str) : Str :=
  ((s.dropWhile pyIsSpace).reverse.dropWhile pyIsSpace).reverse

/-- Join a list of strings with single spaces (Python `" ".join`). -/
def joinSpace (l : List Str) : Str := List.intercalate (lit " ") l

-- =========================================================================
-- Word-boundary pattern scanner.
-- Every security pattern in the source is an alternation of literal
-- keyword phrases (one contains a single-character wildcard) wrapped in
-- word boundaries; alternations are expanded into phrase lists here.
-- =========================================================================

/-- One atom of an expanded pattern: a literal character, or the
any-character wildcard (which does not match a newline). -/
inductive PatAtom
  | litc (c : Char)
  | dot
deriving DecidableEq

/-- Does the atom match the character. -/
def atomMatch : PatAtom → Char → Bool
  | PatAtom.litc x, c => x = c
  | PatAtom.dot, c => c ≠ '\n'

/-- Is `c` a word character for word-boundary purposes. -/
def isWordChar (c : Char) : Bool :=
  ('a' ≤ c && c ≤ 'z') || ('A' ≤ c && c ≤ 'Z') || ('0' ≤ c && c ≤ '9') || c = '_'

/-- A word boundary sits between two positions exactly when one side is a
word character and the other is not (absent characters count as non-word). -/
def isBoundary (left right : Option Char) : Bool :=
  (match left with | none => false | some c => isWordChar c)
    != (match right with | none => false | some c => isWordChar c)

/-- Consume the atoms of a pattern from the front of `s`; return the last
consumed character and the rest on success. -/
def consumePat : List PatAtom → Option Char → Str → Option (Char × Str)
  | [], lastc, s => match lastc with | some c => some (c, s) | none => none
  | _ :: _, _, [] => none
  | a :: ps, _, c :: t => if atomMatch a c then consumePat ps (some c) t else none

/-- Does the word-bounded pattern match starting exactly here, where `prev`
is the character just before the current position (if any). -/
def matchHere (pat : List PatAtom) (prev : Option Char) (s : Str) : Bool :=
  match consumePat pat none s with
  | none => false
  | some (lastc, rest) => isBoundary prev s.head? && isBoundary (some lastc) rest.head?

/-- Scan `s` for a word-bounded occurrence of the pattern. -/
def searchPatFrom (pat : List PatAtom) : Option Char → Str → Bool
  | prev, s =>
      matchHere pat prev s ||
        (match s with
         | [] => false
         | c :: t => searchPatFrom pat (some c) t)

/-- Search a whole string for a word-bounded occurrence of the pattern. -/
def searchPat (pat : List PatAtom) (s : Str) : Bool := searchPatFrom pat none s

/-- Literal phrase as a pattern. -/
def phraseAtoms (s : String) : List PatAtom := s.data.map PatAtom.litc

/-- Word-bounded search for a literal phrase. -/
def searchPhrase (p : Str) (s : Str) : Bool := searchPat (p.map PatAtom.litc) s

/-- Search for a word-bounded second pattern after the current position,
with no intervening newline (the tail of a same-line wildcard run). -/
def searchSecond (pat : List PatAtom) : Option Char → Str → Bool
  | prev, s =>
      matchHere pat prev s ||
        (match s with
         | [] => false
         | c :: t => if c = '\n' then false else searchSecond pat (some c) t)

/-- Search for a word-bounded first pattern followed, after a same-line
any-character run, by a word-bounded second pattern. -/
def searchPatThenFrom (first second : List PatAtom) : Option Char → Str → Bool
  | prev, s =>
      (match consumePat first none s with
       | none => false
       | some (lastc, rest) =>
           isBoundary prev s.head? && isBoundary (some lastc) rest.head?
             && searchSecond second (some lastc) rest) ||
        (match s with
         | [] => false
         | c :: t => searchPatThenFrom first second (some c) t)

/-- Whole-string search for `first` then-later-on-the-same-line `second`. -/
def searchPatThen (first second : List PatAtom) (s : Str) : Bool :=
  searchPatThenFrom first second none s

-- =========================================================================
-- MEDICAL DOMAIN KNOWLEDGE BASE (verbatim vocabulary sets of the source)
-- =========================================================================

/-- Primary medical symptoms and conditions. -/
def MEDICAL_KEYWORDS : List Str :=
  ([ "rash", "acne", "eczema", "psoriasis", "lesion", "mole", "nevus", "wart",
     "blister", "itch", "itching", "itchy", "erythema", "redness", "swelling",
     "inflammation", "bump", "bumps", "spot", "spots", "patch", "patches",
     "bleeding", "bleed", "bruise", "bruising", "pain", "painful", "sore",
     "soreness", "hurt", "hurts", "burning", "discharge", "pus", "infection",
     "infected", "inflamed", "tender", "tenderness", "gum", "gums", "tooth",
     "teeth", "cavity", "caries", "gingivitis", "ulcer", "ulcers", "mouth",
     "lip", "lips", "tongue", "jaw", "enamel", "plaque", "dental", "toothache",
     "sensitivity" ] : List String).map lit

/-- Body parts and anatomical locations. -/
def BODY_PARTS : List Str :=
  ([ "arm", "arms", "leg", "legs", "hand", "hands", "foot", "feet", "finger",
     "fingers", "toe", "toes", "forearm", "forearms", "wrist", "wrists",
     "elbow", "elbows", "shoulder", "shoulders", "back", "chest", "stomach",
     "abdomen", "belly", "side", "sides", "head", "face", "forehead", "cheek",
     "cheeks", "chin", "nose", "eye", "eyes", "ear", "ears", "neck", "throat",
     "skin", "scalp", "hair", "nail", "nails", "upper", "lower", "left",
     "right", "middle", "center", "knee", "knees", "ankle", "ankles", "hip",
     "hips", "thigh", "thighs", "calf", "calves", "shin", "shins" ]
   : List String).map lit

/-- Temporal and spatial descriptors. -/
def DESCRIPTORS : List Str :=
  ([ "about", "around", "near", "between", "under", "over", "above", "below",
     "halfway", "quarter", "third", "part", "area", "region", "section",
     "spot", "location", "since", "ago", "days", "weeks", "months", "years",
     "yesterday", "today", "morning", "evening", "night", "started", "began",
     "appeared", "developed", "showed", "noticed", "small", "large", "big",
     "tiny", "huge", "medium", "sized", "red", "pink", "white", "yellow",
     "brown", "black", "blue", "purple", "green", "round", "circular", "oval",
     "irregular", "shaped" ] : List String).map lit

/-- Personal medical information. -/
def PERSONAL_INFO : List Str :=
  ([ "age", "years", "old", "months", "male", "female", "man", "woman", "boy",
     "girl", "child", "adult", "height", "weight", "tall", "short", "heavy",
     "light", "thin", "pregnant", "pregnancy", "expecting", "trimester",
     "allergic", "allergy", "allergies", "medication", "medicine", "drug",
     "history", "family", "personal", "medical", "condition", "conditions",
     "doctor", "physician", "dermatologist", "dentist" ] : List String).map lit

/-- Conversational responses. -/
def CONVERSATIONAL : List Str :=
  ([ "yes", "no", "maybe", "sometimes", "always", "never", "better", "worse",
     "same", "different", "more", "less", "started", "stopped", "changed",
     "it", "its", "they", "them", "this", "that", "these", "those" ]
   : List String).map lit

/-- Combined medical context vocabulary (union of the five sets). -/
def MEDICAL_CONTEXT : List Str :=
  (MEDICAL_KEYWORDS ++ BODY_PARTS ++ DESCRIPTORS ++ PERSONAL_INFO
    ++ CONVERSATIONAL).dedup

-- =========================================================================
-- SECURITY PATTERNS
-- =========================================================================

/-- The injection patterns of the source, with their alternations and
optional groups expanded into word-bounded literal phrases.  The patterns
are case-insensitive in the source; the detector model lowers the text and
searches these lower-case phrases, which coincides on ASCII text. -/
def INJECTION_PHRASES : List Str :=
  ([ -- ignore (all|previous) (instructions|rules|prompts)
     "ignore all instructions", "ignore all rules", "ignore all prompts",
     "ignore previous instructions", "ignore previous rules",
     "ignore previous prompts",
     -- disregard (the )?(system|previous|prior) (prompt|instruction)
     "disregard the system prompt", "disregard the system instruction",
     "disregard the previous prompt", "disregard the previous instruction",
     "disregard the prior prompt", "disregard the prior instruction",
     "disregard system prompt", "disregard system instruction",
     "disregard previous prompt", "disregard previous instruction",
     "disregard prior prompt", "disregard prior instruction",
     -- override (the )?(safety|security|system)
     "override the safety", "override the security", "override the system",
     "override safety", "override security", "override system",
     -- you are (now |)chatgpt
     "you are now chatgpt", "you are chatgpt",
     -- reset (your|the) (instructions|rules|system)
     "reset your instructions", "reset your rules", "reset your system",
     "reset the instructions", "reset the rules", "reset the system" ]
   : List String).map lit

/-- First parts of the pretend pattern: pretend (you|to) (are|be),
word-bounded, followed on the same line by a word-bounded (not|different). -/
def PRETEND_FIRSTS : List Str :=
  ([ "pretend you are", "pretend you be", "pretend to are", "pretend to be" ]
   : List String).map lit

/-- Second parts of the pretend pattern. -/
def PRETEND_SECONDS : List Str :=
  ([ "not", "different" ] : List String).map lit

/-- Does any injection pattern match the text (searched case-insensitively
by lowering the text). -/
def injectionHit (text : Str) : Bool :=
  let tl := toLowerStr text
  INJECTION_PHRASES.any (fun p => searchPhrase p tl) ||
    PRETEND_FIRSTS.any (fun f =>
      PRETEND_SECONDS.any (fun s =>
        searchPatThen (f.map PatAtom.litc) (s.map PatAtom.litc) tl))

/-- `PromptInjectionDetector.detect`: empty text is never suspicious; the
first matching pattern yields the fixed reason (all patterns share it, so
the ordered first-match loop reduces to an any-match). -/
def detect (text : Str) : Bool × Str :=
  if text = [] then (false, [])
  else if injectionHit text then (true, lit "Invalid input detected")
  else (false, [])

-- =========================================================================
-- DOMAIN GROUNDING
-- =========================================================================

/-- Specialty keywords of signal 6 (substring-checked against the lowered
message); unrecognized specialties get the empty list. -/
def specialtyKeywords (speciality : Str) : List Str :=
  if speciality = lit "skin" then
    ([ "skin", "derma", "face", "body", "area", "spot", "mark" ] : List String).map lit
  else if speciality = lit "oral" then
    ([ "tooth", "teeth", "mouth", "dental", "bite", "chew", "taste" ] : List String).map lit
  else []

/-- Specialty context words of the history analyzer (substring-checked
against the lowered combined history text). -/
def specialtyContext (speciality : Str) : List Str :=
  if speciality = lit "skin" then
    ([ "skin", "derma", "rash", "mole", "itch", "face", "arm", "leg", "back" ] : List String).map lit
  else if speciality = lit "oral" then
    ([ "tooth", "teeth", "gum", "mouth", "dental", "bite", "jaw", "tongue" ] : List String).map lit
  else []

/-- The obviously-non-medical patterns checked before the default-deny
rejection, expanded into word-bounded phrases. -/
def NON_MEDICAL_PHRASES : List Str :=
  ([ "weather", "sports", "politics", "news", "recipe", "movie", "music",
     "how to make", "how to cook", "how to build", "how to install",
     "what is the capital", "what is the president", "what is the weather",
     "what is a capital", "what is a president", "what is a weather" ]
   : List String).map lit

/-- Does the lowered text match one of the non-medical patterns. -/
def nonMedicalHit (text_lower : Str) : Bool :=
  NON_MEDICAL_PHRASES.any (fun p => searchPhrase p text_lower)

/-- The static off-topic guidance message. -/
def off_topic_response : Str :=
  lit "I'm designed to help with skin and oral health concerns. Please describe your medical symptoms or concern. For example: 'I have a rash on my arm' or 'My gums are bleeding'."

/-- `DomainGrounding._analyze_conversation_context`: medical context is
established when the last ten history messages, joined and lowered, contain
a medical keyword token, or a specialty context word as a substring, or
both a body-part token and at least three distinct descriptor tokens.
History entries are modelled by their content strings. -/
def analyzeConversationContext (history : List Str) (speciality : Str) : Bool :=
  if history = [] then false
  else
    let recent := history.drop (history.length - 10)
    let combined_text := toLowerStr (joinSpace recent)
    let history_tokens := (runsBy isLowerAlpha combined_text).dedup
    let has_medical_keywords := history_tokens.any (· ∈ MEDICAL_KEYWORDS)
    let has_body_parts := history_tokens.any (· ∈ BODY_PARTS)
    let has_descriptors :=
      decide (3 ≤ (history_tokens.filter (· ∈ DESCRIPTORS)).length)
    let has_specialty_context :=
      (specialtyContext speciality).any (fun w => containsSeq w combined_text)
    has_medical_keywords || has_specialty_context || (has_body_parts && has_descriptors)

/-- `DomainGrounding.is_in_domain`: the ordered short-circuit signals of
the source.  The final region checks the non-medical patterns but rejects
with the same guidance message whether or not one matches, so the two
rejection exits collapse to one. -/
def is_in_domain (text : Str) (speciality : Str) (history : List Str) : Bool × Str :=
  if text = [] then (true, [])
  else
    let text_lower := toLowerStr text
    let tokens := (runsBy isLowerAlpha text_lower).dedup
    if tokens.any (· ∈ MEDICAL_KEYWORDS) then (true, [])
    else if tokens.any (· ∈ BODY_PARTS) then (true, [])
    else
      let descriptor_count := (tokens.filter (· ∈ DESCRIPTORS)).length
      let has_descriptors := decide (0 < descriptor_count)
      if 2 ≤ descriptor_count ∧ tokens.length ≤ 20 then (true, [])
      else
        let has_personal_info := tokens.any (· ∈ PERSONAL_INFO)
        if has_personal_info = true ∧ tokens.length ≤ 15 then (true, [])
        else if history ≠ [] ∧ analyzeConversationContext history speciality = true ∧
            (tokens.length ≤ 20 ∨ has_descriptors = true ∨
              tokens.any (fun t =>
                t ∈ ([ "yes", "no", "it", "its", "this", "that" ] : List String).map lit) = true) then
          (true, [])
        else if (speciality = lit "skin" ∨ speciality = lit "oral") ∧
            ((specialtyKeywords speciality).any (fun w => containsSeq w text_lower) = true ∨
              (tokens.length ≤ 10 ∧ (has_descriptors = true ∨ has_personal_info = true))) then
          (true, [])
        else (false, off_topic_response)

-- =========================================================================
-- CONTENT MODERATOR
-- =========================================================================

/-- Crisis patterns: suicide, kill myself, end my life, want to die. -/
def CRISIS_PHRASES_A : List Str :=
  ([ "suicide", "kill myself", "end my life", "want to die" ] : List String).map lit

/-- Crisis patterns of the second group; the dot in the self-harm pattern
is the any-character wildcard. -/
def CRISIS_PATTERNS_B : List (List PatAtom) :=
  [ phraseAtoms "self" ++ [PatAtom.dot] ++ phraseAtoms "harm",
    phraseAtoms "cutting myself",
    phraseAtoms "hurt myself" ]

/-- Does the lowered text match a crisis pattern. -/
def crisisHit (text_lower : Str) : Bool :=
  CRISIS_PHRASES_A.any (fun p => searchPhrase p text_lower) ||
    CRISIS_PATTERNS_B.any (fun p => searchPat p text_lower)

/-- The fixed emergency-resources message. -/
def emergency_response : Str :=
  lit "I'm concerned about your safety. If you're in crisis or considering self-harm, please contact emergency services immediately (call 911 in the US) or reach out to a crisis helpline like the 988 Suicide & Crisis Lifeline (call or text 988). Your life matters and help is available 24/7."

/-- `ContentModerator.moderate`: crisis patterns first, then the length
cap, then the degenerate-repetition heuristic. -/
def moderate (text : Str) : Bool × Str × Str :=
  if text = [] then (true, lit "safe", [])
  else
    let text_lower := toLowerStr text
    if crisisHit text_lower then (false, lit "emergency", emergency_response)
    else if 8000 < text.length then
      (false, lit "validation",
        lit "Message too long. Please keep messages under 8000 characters.")
    else if (pySplitWS (toLowerStr text)).dedup.length < 3 ∧ 50 < text.length then
      (false, lit "validation", lit "Invalid message format")
    else (true, lit "safe", [])

-- =========================================================================
-- RESPONSE SANITIZER
-- =========================================================================

/-- Per-character HTML escaping with quotes, as `html.escape` (which
replaces the ampersand first, so one pass equals this per-character map). -/
def escChar (c : Char) : Str :=
  if c = '&' then lit "&amp;"
  else if c = '<' then lit "&lt;"
  else if c = '>' then lit "&gt;"
  else if c = '"' then lit "&quot;"
  else if c = '\'' then lit "&#x27;"
  else [c]

/-- HTML-escape a string. -/
def htmlEscape (s : Str) : Str := s.flatMap escChar

/-- The control characters stripped by the sanitizer. -/
def isStrippedCtrl (c : Char) : Bool :=
  (c.toNat ≤ 0x08) || (0x0b ≤ c.toNat && c.toNat ≤ 0x0c) ||
    (0x0e ≤ c.toNat && c.toNat ≤ 0x1f) || (c.toNat = 0x7f)

/-- Remove the stripped control characters. -/
def removeCtrl (s : Str) : Str := s.filter (fun c => !isStrippedCtrl c)

/-- `ResponseSanitizer.sanitize_text`: empty in, empty out; otherwise
HTML-escape, drop control characters, strip surrounding whitespace. -/
def sanitize_text (s : Str) : Str :=
  if s = [] then [] else pyStrip (removeCtrl (htmlEscape s))

-- =========================================================================
-- RATE LIMITER
-- Timestamps (Python `time.time()` values) are modelled as rationals.
-- =========================================================================

/-- Python `int()` of a rational: truncation toward zero. -/
def pyInt (q : ℚ) : ℤ := if 0 ≤ q then q.floor else -((-q).floor)

/-- Decimal rendering of an integer. -/
def intRender (i : ℤ) : Str :=
  if i < 0 then '-' :: Nat.toDigits 10 i.natAbs else Nat.toDigits 10 i.natAbs

/-- The rate-limit rejection message with the computed wait time. -/
def rateLimitMsg (wait : ℤ) : Str :=
  lit "Rate limit exceeded. Please try again in " ++ intRender wait
    ++ lit " seconds."

/-- The limiter state: one timestamp list per (user, kind) key; the Python
dict with its missing-key-means-empty convention is modelled as a total
function defaulting to the empty list. -/
structure RateLimiter where
  bucket : Str × Str → List ℚ

/-- The configured limits: (limit, window seconds) per kind, with the
default text limits for unknown kinds. -/
def limitsFor (kind : Str) : Nat × ℚ :=
  if kind = lit "text" then (30, 60)
  else if kind = lit "image" then (5, 3600)
  else (30, 60)

/-- `RateLimiter.check`: trim expired timestamps, reject at the limit with
the wait message computed from the oldest kept timestamp, else append the
current time and accept. -/
def RateLimiter.check (rl : RateLimiter) (now : ℚ) (user_id kind : Str) :
    (Bool × Str) × RateLimiter :=
  let lw := limitsFor kind
  let key := (user_id, kind)
  let kept := (rl.bucket key).filter (fun t => now - t < lw.2)
  if lw.1 ≤ kept.length then
    ((false, rateLimitMsg (pyInt (lw.2 - (now - kept.headI)))),
     ⟨fun k => if k = key then kept else rl.bucket k⟩)
  else
    ((true, []), ⟨fun k => if k = key then kept ++ [now] else rl.bucket k⟩)

/-- The fresh limiter: every key empty. -/
def RateLimiter.fresh : RateLimiter := ⟨fun _ => []⟩

/-- Run a sequence of checks for one key at the given times, collecting the
allowed flags. -/
def RateLimiter.runChecks (rl : RateLimiter) (user_id kind : Str) :
    List ℚ → RateLimiter × List Bool
  | [] => (rl, [])
  | t :: ts =>
      let r := rl.check t user_id kind
      let rest := RateLimiter.runChecks r.2 user_id kind ts
      (rest.1, r.1.1 :: rest.2)

/-- Limiter states reachable from the fresh state by `check` calls. -/
inductive RLReachable : RateLimiter → Prop
  | start : RLReachable RateLimiter.fresh
  | step (rl : RateLimiter) (now : ℚ) (u k : Str) :
      RLReachable rl → RLReachable ((rl.check now u k).2)

-- =========================================================================
-- JSON VALUES (downstream response bodies and metadata dictionaries)
-- =========================================================================

/-- JSON-like values exchanged with the downstream services and stored in
metadata maps; numbers are modelled as rationals. -/
inductive Json
  | null
  | bool (b : Bool)
  | num (q : ℚ)
  | str (s : Str)
  | arr (l : List Json)
  | obj (l : List (Str × Json))

/-- Dictionary lookup, modelling Python `dict.get(key)`; the response
bodies read through this are objects. -/
def jGet : Json → Str → Option Json
  | Json.obj l, k => l.lookup k
  | _, _ => none

/-- `dict.get(key, default)`. -/
def jGetD (j : Json) (k : Str) (d : Json) : Json := (jGet j k).getD d

/-- Python truthiness of a JSON value. -/
def pyTruthy : Json → Bool
  | Json.null => false
  | Json.bool b => b
  | Json.num q => decide (q ≠ 0)
  | Json.str s => decide (s ≠ [])
  | Json.arr l => !l.isEmpty
  | Json.obj l => !l.isEmpty

/-- Python `str()` rendering of a JSON value as used in message
interpolation (the relevant interpolated values are strings; other shapes
get fixed placeholders, none of which the claims evaluate). -/
def pyStr : Json → Str
  | Json.str s => s
  | Json.bool true => lit "True"
  | Json.bool false => lit "False"
  | Json.null => lit "None"
  | Json.num q => intRender q.floor
  | Json.arr _ => lit "[...]"
  | Json.obj _ => lit "..."

-- =========================================================================
-- SECURITY ORCHESTRATOR
-- =========================================================================

/-- The process-wide metric counters; the blocked-by-reason dict is an
insertion-ordered association list. -/
structure Metrics where
  total : Nat
  blocked : Nat
  reasons : List (Str × Nat)

/-- `block_reasons[reason] = block_reasons.get(reason, 0) + 1`: update in
place if present, else append with count one. -/
def bumpReason : List (Str × Nat) → Str → List (Str × Nat)
  | [], k => [(k, 1)]
  | (a, n) :: t, k => if a = k then (a, n + 1) :: t else (a, n) :: bumpReason t k

/-- Orchestrator state: the enabled flag, the limiter, and the metrics
(the stateless detector, grounding, moderator and sanitizer members carry
no state and are modelled by their functions). -/
structure SecurityOrchestrator where
  enabled : Bool
  rate_limiter : RateLimiter
  metrics : Metrics

/-- `SecurityOrchestrator._track_block`. -/
def trackBlock (o : SecurityOrchestrator) (reason : Str) : SecurityOrchestrator :=
  { o with metrics :=
      { o.metrics with
          blocked := o.metrics.blocked + 1,
          reasons := bumpReason o.metrics.reasons reason } }

/-- A fresh orchestrator with zeroed metrics. -/
def SecurityOrchestrator.fresh (enabled : Bool) : SecurityOrchestrator :=
  ⟨enabled, RateLimiter.fresh, ⟨0, 0, []⟩⟩

/-- `SecurityOrchestrator.validate_input`: count the request; when
disabled, always allow; otherwise strip the message and run the fail-fast
layers: rate limit, injection detection, domain grounding (text only),
content moderation.  The metadata dictionary of the result is the third
component.  History entries are modelled by their content strings. -/
def validate_input (o : SecurityOrchestrator) (now : ℚ)
    (user_id msg req_type speciality : Str) (hist : List Str) :
    (Bool × Str × Json) × SecurityOrchestrator :=
  let m1 : Metrics := { o.metrics with total := o.metrics.total + 1 }
  if o.enabled = false then
    ((true, [], Json.obj [(lit "category", Json.str (lit "security_disabled"))]),
     { o with metrics := m1 })
  else
    let message := pyStrip msg
    let kind := if req_type = lit "text" then lit "text" else lit "image"
    let rc := o.rate_limiter.check now user_id kind
    let o1 : SecurityOrchestrator := { o with rate_limiter := rc.2, metrics := m1 }
    if rc.1.1 = false then
      ((false, rc.1.2, Json.obj [(lit "error_type", Json.str (lit "rate_limit"))]),
       trackBlock o1 (lit "rate_limit"))
    else if (detect message).1 = true then
      ((false, lit "Invalid input detected.",
        Json.obj [(lit "error_type", Json.str (lit "security"))]),
       trackBlock o1 (lit "injection"))
    else if req_type = lit "text" ∧ (is_in_domain message speciality hist).1 = false then
      ((false, (is_in_domain message speciality hist).2,
        Json.obj [(lit "error_type", Json.str (lit "off_topic"))]),
       trackBlock o1 (lit "off_topic"))
    else
      let md := moderate message
      if md.1 = false then
        if md.2.1 = lit "emergency" then
          ((false, md.2.2,
            Json.obj [(lit "error_type", Json.str (lit "emergency"))]),
           trackBlock o1 md.2.1)
        else
          ((false, if md.2.2 = [] then lit "Inappropriate content" else md.2.2,
            Json.obj [(lit "error_type", Json.str md.2.1)]),
           trackBlock o1 md.2.1)
      else
        ((true, [], Json.obj [(lit "category", Json.str (lit "safe"))]), o1)

/-- The block-rate reported by `get_metrics`: blocked over `max(total, 1)`. -/
def getMetricsBlockRate (m : Metrics) : ℚ :=
  (m.blocked : ℚ) / (max m.total 1 : ℚ)

/-- Orchestrator states reachable from a fresh one by `validate_input`. -/
inductive OrchReachable : SecurityOrchestrator → Prop
  | start (enabled : Bool) : OrchReachable (SecurityOrchestrator.fresh enabled)
  | step (o : SecurityOrchestrator) (now : ℚ) (u m rt sp : Str) (h : List Str) :
      OrchReachable o → OrchReachable ((validate_input o now u m rt sp h).2)

-- =========================================================================
-- RETRYING HTTP CLIENT
-- `post_json` is modelled over an oracle giving each attempt's outcome:
-- a parsed JSON body, or the exception text of that attempt (any transport
-- error or non-2xx status raised by the attempt).  Sleeps are recorded in
-- tenths of a second (the base delay is 0.3 s).
-- =========================================================================

/-- The retry loop: `fuel` remaining iterations, `i` the current attempt
index, `lastErr` the last recorded error.  Returns the outcome, the sleep
trace in tenths of a second, and the number of attempts made. -/
def postJsonLoop (f : Nat → Except Str Json) : Nat → Nat → Str →
    Except Str Json × List Nat × Nat
  | 0, _, lastErr => (Except.error lastErr, [], 0)
  | Nat.succ fuel, i, _ =>
      match f i with
      | Except.ok v => (Except.ok v, [], 1)
      | Except.error e =>
          let rest := postJsonLoop f fuel (i + 1) e
          (rest.1, 3 * (i + 1) :: rest.2.1, rest.2.2 + 1)

/-- `HttpClient.post_json` with the configured retry count: at most
`retries + 1` attempts; each failed attempt records its backoff sleep and
its error; exhaustion surfaces the last error (wrapped into a 502 by the
caller-side model below). -/
def post_json (retries : Nat) (f : Nat → Except Str Json) :
    Except Str Json × List Nat × Nat :=
  postJsonLoop f (retries + 1) 0 []

-- =========================================================================
-- SUPERVISOR AGENT (app.py)
-- =========================================================================

/-- The downstream services. -/
inductive Target
  | skinAgent
  | oralAgent
  | visionAgent
  | reportingAgent
deriving DecidableEq

/-- Exception details; a downstream wrap models the interpolated
f-string naming the downstream URL around the inner error text. -/
inductive ErrDetail
  | msg (s : Str)
  | downstream (t : Target) (inner : ErrDetail)

/-- An HTTPException: status code and detail. -/
structure HExc where
  status : Nat
  detail : ErrDetail

/-- Observable side effects of a turn, in issue order: transcript
appends, metadata merges, vision-result logs, report saves, and
downstream backend calls. -/
inductive Effect
  | saveMessage (chat_id sender userName userId text : Str) (image : Option Str)
  | saveUserMeta (chat_id : Str) (meta : Json)
  | logVision (chat_id : Str) (record : Json)
  | saveReport (chat_id : Str) (record : Json)
  | callBackend (t : Target) (payload : Json)

/-- One history entry of the request payload. -/
structure MessageTurn where
  role : Str
  content : Str

/-- The supervisor request (the source field named `type` is modelled as
`reqType`, and `user` as `userName`). -/
structure SupervisorRequest where
  message : Option Str
  image_url : Option Str
  userName : Option Str
  user_id : Str
  chat_id : Str
  reqType : Str
  speciality : Str
  history : List MessageTurn

/-- The normalized response envelope (the server-set timestamp field is a
wall-clock default carrying no logic and is omitted). -/
structure AgentResponse where
  success : Bool
  response : Str
  response_type : Str
  chat_id : Str
  metadata : Json
  error : Option Json

/-- The `ok` helper of the source. -/
def mkOk (chat_id msg typ : Str) (meta : Json) : AgentResponse :=
  ⟨true, msg, typ, chat_id, meta, none⟩

/-- The `err` helper of the source: success false, response_type the fixed
string error, metadata the given map or an error_type singleton, and an
error object carrying the given type tag and message. -/
def mkErr (chat_id msg typ : Str) (meta : Option Json) : AgentResponse :=
  ⟨false, msg, lit "error", chat_id,
   meta.getD (Json.obj [(lit "error_type", Json.str typ)]),
   some (Json.obj [(lit "type", Json.str typ), (lit "message", Json.str msg)])⟩

/-- Option-string to JSON (Python `None` becomes null). -/
def optStrJson : Option Str → Json
  | none => Json.null
  | some s => Json.str s

/-- Read a string value out of a metadata map with a default, as
`meta.get(key, default)` on maps whose values here are strings. -/
def jGetStrD (j : Json) (k : Str) (d : Str) : Str :=
  match jGet j k with
  | some v => pyStr v
  | none => d

/-- The injected image-URL validator of `validate_payload`
(`utils.validators.validate_image_url`); its internals are not touched by
any claim, so the environment carries it as a parameter. -/
structure Env where
  imageUrlCheck : Str → Bool × Str

/-- `validate_payload`: a 400 for a text turn without a message, a 400 for
an image turn whose URL fails the validator. -/
def validate_payload (env : Env) (req : SupervisorRequest) : Option HExc :=
  if req.reqType = lit "text" ∧ pyTruthy (optStrJson req.message) = false then
    some ⟨400, ErrDetail.msg (lit "message required for text turns")⟩
  else if req.reqType = lit "image" then
    let r := env.imageUrlCheck (req.image_url.getD [])
    if r.1 = false then some ⟨400, ErrDetail.msg r.2⟩ else none
  else none

/-- `_log_user_message` as an effect. -/
def userMsgEffect (req : SupervisorRequest) : Effect :=
  Effect.saveMessage req.chat_id (lit "user") (req.userName.getD []) req.user_id
    (if req.reqType = lit "text" then pyStr (optStrJson req.message)
     else lit "[Image sent]")
    (if req.reqType = lit "image" then req.image_url else none)

/-- `_log_bot_message` as an effect. -/
def botMsgEffect (req : SupervisorRequest) (resp : AgentResponse) : Effect :=
  Effect.saveMessage req.chat_id (lit "bot") (lit "AI Bot") req.user_id
    resp.response none

/-- History entry as the JSON dict sent downstream. -/
def turnJson (t : MessageTurn) : Json :=
  Json.obj [(lit "role", Json.str t.role), (lit "content", Json.str t.content)]

/-- The text backend selected by specialty. -/
def agentTargetFor (spec : Str) : Target :=
  if spec = lit "skin" then Target.skinAgent else Target.oralAgent

/-- `_route_text`: build the rolling history (appending the new message
unless it is already the last history entry), post to the specialty agent,
persist truthy collected info, and assemble the text response.  A failed
call surfaces as a 502 wrapping the client's own 502 (the generic handler
of the source re-wraps the exception raised by `post_json`).  The
source's in-place append to `req.history` is local to the handler and
affects neither the returned value nor any effect. -/
def route_text (req : SupervisorRequest) (backend : Except Str Json) :
    Except HExc AgentResponse × List Effect :=
  let target := agentTargetFor req.speciality
  let base := req.history.map turnJson
  let chat_history :=
    if (match req.history.getLast? with
        | none => true
        | some t => decide (req.message ≠ some t.content)) then
      base ++ [Json.obj [(lit "role", Json.str (lit "user")),
                         (lit "content", optStrJson req.message)]]
    else base
  let payload := Json.obj
    [(lit "thread_id", Json.str req.chat_id),
     (lit "message", optStrJson req.message),
     (lit "chat_history", Json.arr chat_history)]
  match backend with
  | Except.error e =>
      (Except.error ⟨502, ErrDetail.downstream target
          (ErrDetail.downstream target (ErrDetail.msg e))⟩,
       [Effect.callBackend target payload])
  | Except.ok data =>
      let msg := pyStr (jGetD data (lit "response") (Json.str []))
      let sri := jGetD data (lit "should_request_image") (Json.bool false)
      let collected_info := jGetD data (lit "collected_info") (Json.obj [])
      let metaEffects :=
        if pyTruthy collected_info then
          [Effect.saveUserMeta req.chat_id collected_info]
        else []
      let meta := Json.obj
        [(lit "thread_id", jGetD data (lit "thread_id") Json.null),
         (lit "chat_history", jGetD data (lit "chat_history") (Json.arr [])),
         (lit "information_complete",
            jGetD data (lit "information_complete") (Json.bool false)),
         (lit "should_request_image", sri),
         (lit "ready_for_images", sri),
         (lit "collected_info", collected_info),
         (lit "api_calls", jGetD data (lit "api_calls") (Json.num 1))]
      (Except.ok (mkOk req.chat_id msg (lit "text") meta),
       Effect.callBackend target payload :: metaEffects)

/-- `_route_image_then_report`: post to the vision agent; an invalid image
yields (and bot-logs) a normal negative result; a valid one logs the
vision record, fetches the persisted collected info (`fsMeta`, the stored
user_metadata map, or an empty map when absent), posts to the reporting
agent, saves the report, and returns the report response.  Backend
failures surface as the client's own 502 (no extra wrap here). -/
def route_image_then_report (req : SupervisorRequest)
    (vision : Except Str Json) (fsMeta : Json) (report : Except Str Json) :
    Except HExc AgentResponse × List Effect :=
  let vision_payload := Json.obj
    [(lit "image_url", optStrJson req.image_url),
     (lit "user_id", Json.str req.user_id),
     (lit "chat_id", Json.str req.chat_id),
     (lit "chat_type", Json.str req.speciality),
     (lit "message_type", Json.str (lit "image"))]
  let callV := Effect.callBackend Target.visionAgent vision_payload
  match vision with
  | Except.error e =>
      (Except.error ⟨502, ErrDetail.downstream Target.visionAgent (ErrDetail.msg e)⟩,
       [callV])
  | Except.ok v =>
      let is_valid := pyTruthy (jGetD v (lit "is_valid") (Json.bool false))
      let vr := jGetD v (lit "validation_reason") (Json.str [])
      if is_valid = false then
        let resp := mkErr req.chat_id (lit "Invalid image: " ++ pyStr vr)
          (lit "invalid_image")
          (some (Json.obj
            [(lit "validation_reason", vr),
             (lit "error_type", Json.str (lit "image_validation_failed"))]))
        (Except.ok resp, [callV, botMsgEffect req resp])
      else
        let pr := jGetD v (lit "prediction_result") Json.null
        if pyTruthy pr = false then
          (Except.error ⟨502,
            ErrDetail.msg (lit "Vision agent returned valid image but no prediction result")⟩,
           [callV])
        else
          let diagName := jGetD pr (lit "predicted_class") (Json.str (lit "Unknown"))
          let conf := jGetD pr (lit "confidence") (Json.num 0)
          let diagnosis := Json.obj
            [(lit "diagnosis_name", diagName), (lit "confidence", conf)]
          let visionRecord := Json.obj
            [(lit "speciality", Json.str req.speciality),
             (lit "diagnosis", diagName), (lit "confidence", conf)]
          let report_payload := Json.obj
            [(lit "user_id", Json.str req.user_id),
             (lit "chat_id", Json.str req.chat_id),
             (lit "speciality", Json.str req.speciality),
             (lit "type", Json.str (lit "report")),
             (lit "history", Json.arr (req.history.map turnJson)),
             (lit "diagnosis", diagnosis),
             (lit "image_url", optStrJson req.image_url),
             (lit "metadata", fsMeta)]
          let callR := Effect.callBackend Target.reportingAgent report_payload
          match report with
          | Except.error e =>
              (Except.error ⟨502,
                ErrDetail.downstream Target.reportingAgent (ErrDetail.msg e)⟩,
               [callV, Effect.logVision req.chat_id visionRecord, callR])
          | Except.ok rep =>
              let report_data := jGetD rep (lit "report") (Json.obj [])
              let dfr := jGetD rep (lit "diagnosis") diagnosis
              let outJ := jGetD report_data (lit "output") Json.null
              let report_output :=
                if pyTruthy outJ then outJ else Json.str (lit "Your report is ready.")
              let meta := Json.obj
                [(lit "diagnosis", dfr),
                 (lit "report", report_data),
                 (lit "image_description", jGetD rep (lit "image_description") Json.null),
                 (lit "image_url", jGetD rep (lit "image_url") (optStrJson req.image_url)),
                 (lit "speciality", jGetD rep (lit "speciality") (Json.str req.speciality)),
                 (lit "generated_at", jGetD rep (lit "generated_at") Json.null),
                 (lit "status", jGetD rep (lit "status") (Json.str (lit "success"))),
                 (lit "message_state", Json.str (lit "COMPLETED")),
                 (lit "ready_for_images", Json.bool false),
                 (lit "validation_reason", vr)]
              let final := mkOk req.chat_id (pyStr report_output) (lit "report") meta
              (Except.ok final,
               [callV, Effect.logVision req.chat_id visionRecord, callR,
                Effect.saveReport req.chat_id (Json.obj
                  [(lit "diagnosis", dfr), (lit "report", report_data),
                   (lit "full_report_response", rep)])])

/-- `main_entry`: payload validation, user-message logging, security
validation for text turns (a rejection is returned, bot-logged, with no
routing), then routing; a normal routed response is bot-logged, while an
HTTPException from a route is re-raised unlogged.  The downstream
outcomes and the stored collected-info map are oracle parameters. -/
def main_entry (env : Env) (now : ℚ) (orch : SecurityOrchestrator)
    (req : SupervisorRequest) (textBackend vision : Except Str Json)
    (fsMeta : Json) (report : Except Str Json) :
    Except HExc AgentResponse × SecurityOrchestrator × List Effect :=
  match validate_payload env req with
  | some e => (Except.error e, orch, [])
  | none =>
      let eff0 := [userMsgEffect req]
      if req.reqType = lit "text" then
        let hist := req.history.map (fun t => t.content)
        let v := validate_input orch now req.user_id (req.message.getD [])
          req.reqType req.speciality hist
        if v.1.1 = false then
          let resp := mkErr req.chat_id v.1.2.1
            (jGetStrD v.1.2.2 (lit "error_type") (lit "security")) (some v.1.2.2)
          (Except.ok resp, v.2, eff0 ++ [botMsgEffect req resp])
        else
          match route_text req textBackend with
          | (Except.ok resp, effs) =>
              (Except.ok resp, v.2, eff0 ++ effs ++ [botMsgEffect req resp])
          | (Except.error e, effs) => (Except.error e, v.2, eff0 ++ effs)
      else
        match route_image_then_report req vision fsMeta report with
        | (Except.ok resp, effs) =>
            (Except.ok resp, orch, eff0 ++ effs ++ [botMsgEffect req resp])
        | (Except.error e, effs) => (Except.error e, orch, eff0 ++ effs)

/-- Is an effect a transcript append. -/
def isTranscriptEffect : Effect → Bool
  | Effect.saveMessage _ _ _ _ _ _ => true
  | _ => false

/-- Is an effect a bot transcript append. -/
def isBotMessage : Effect → Bool
  | Effect.saveMessage _ sender _ _ _ _ => sender = lit "bot"
  | _ => false

/-- Is an effect a downstream backend call. -/
def isBackendCall : Effect → Bool
  | Effect.callBackend _ _ => true
  | _ => false

/-- Does an effect write conversation state (collected-info metadata,
vision records, reports) as opposed to transcript appends or calls. -/
def isConversationStateWrite : Effect → Bool
  | Effect.saveUserMeta _ _ => true
  | Effect.logVision _ _ => true
  | Effect.saveReport _ _ => true
  | _ => false

-- =========================================================================
-- Supporting lemmas
-- =========================================================================

/-- The characters replaced by the HTML escaping step. -/
def htmlEscapable (c : Char) : Bool :=
  c = '&' || c = '<' || c = '>' || c = '"' || c = '\''

theorem escChar_of_not_escapable {c : Char} (h : htmlEscapable c = false) :
    escChar c = [c] := by
  simp only [htmlEscapable, Bool.or_eq_false_iff, decide_eq_false_iff_not] at h
  obtain ⟨⟨⟨⟨h1, h2⟩, h3⟩, h4⟩, h5⟩ := h
  simp [escChar, h1, h2, h3, h4, h5]

theorem htmlEscape_of_not_escapable :
    ∀ {s : Str}, (∀ c ∈ s, htmlEscapable c = false) → htmlEscape s = s := by
  intro s
  induction s with
  | nil => intro _; rfl
  | cons a t ih =>
      intro h
      have ha := escChar_of_not_escapable (h a (List.mem_cons_self a t))
      have ht := ih fun c hc => h c (List.mem_cons_of_mem a hc)
      simp only [htmlEscape] at ht ⊢
      simp [List.flatMap_cons, ha, ht]

theorem pyStrip_eq_rdropWhile (s : Str) :
    pyStrip s = List.rdropWhile pyIsSpace (s.dropWhile pyIsSpace) := rfl

theorem mem_pyStrip {c : Char} {s : Str} (h : c ∈ pyStrip s) : c ∈ s := by
  rw [pyStrip_eq_rdropWhile] at h
  exact ((List.rdropWhile_prefix _ _).sublist.trans
    (List.dropWhile_sublist _)).mem h

theorem mem_removeCtrl {c : Char} {s : Str} (h : c ∈ removeCtrl s) :
    c ∈ s ∧ isStrippedCtrl c = false := by
  have := List.mem_filter.mp h
  simpa using this

theorem removeCtrl_of_none {s : Str}
    (h : ∀ c ∈ s, isStrippedCtrl c = false) : removeCtrl s = s := by
  apply List.filter_eq_self.mpr
  intro a ha
  simp [h a ha]

theorem dropWhile_head_not_of_prefix {p : Char → Bool} {u v : Str}
    (hpre : v <+: u.dropWhile p) (hv : 0 < v.length) :
    v.dropWhile p = v := by
  apply List.dropWhile_eq_self_iff.mpr
  intro hl
  have hu : 0 < (u.dropWhile p).length := lt_of_lt_of_le hv hpre.length_le
  have hnot := List.dropWhile_get_zero_not p u hu
  have heq : v.get ⟨0, hl⟩ = (u.dropWhile p).get ⟨0, hu⟩ := by
    simp only [List.get_eq_getElem]
    exact hpre.getElem hl
  rw [heq]
  exact hnot

theorem pyStrip_idempotent (s : Str) : pyStrip (pyStrip s) = pyStrip s := by
  rw [pyStrip_eq_rdropWhile, pyStrip_eq_rdropWhile]
  set u := s.dropWhile pyIsSpace with hu
  set v := List.rdropWhile pyIsSpace u with hv
  have hdrop : v.dropWhile pyIsSpace = v := by
    rcases Nat.eq_zero_or_pos v.length with h0 | hpos
    · have : v = [] := List.length_eq_zero.mp h0
      simp [this]
    · exact dropWhile_head_not_of_prefix (hv ▸ List.rdropWhile_prefix pyIsSpace u) hpos
  rw [hdrop, hv, List.rdropWhile_idempotent]

-- =========================================================================
-- CLAIM C3 — sanitizer idempotence
-- =========================================================================

/-- C3 counterexample: `sanitize_text` is not idempotent on all strings —
the HTML-escape step re-escapes the ampersand of an entity it produced, so
a single less-than sign becomes an lt entity after one pass and an
amp-lt entity after two. -/
theorem C3_sanitize_not_idempotent_counterexample :
    sanitize_text (sanitize_text (lit "<")) ≠ sanitize_text (lit "<") := by
  decide

/-- C3 (amended): `sanitize_text` is idempotent on every string containing
none of the five HTML-escapable characters (ampersand, angle brackets and
the two quote characters); on such strings one pass leaves no escapable
character behind, and control-stripping and whitespace-trimming are
idempotent. -/
theorem C3_sanitize_idempotent_of_no_escapable (s : Str)
    (h : ∀ c ∈ s, htmlEscapable c = false) :
    sanitize_text (sanitize_text s) = sanitize_text s := by
  by_cases hs : s = []
  · subst hs; rfl
  · have hesc : htmlEscape s = s := htmlEscape_of_not_escapable h
    have h1 : sanitize_text s = pyStrip (removeCtrl s) := by
      simp [sanitize_text, hs, hesc]
    set y := pyStrip (removeCtrl s) with hy
    rw [h1]
    by_cases hynil : y = []
    · rw [hynil]; rfl
    · have hymem : ∀ c ∈ y, c ∈ removeCtrl s := fun c hc => mem_pyStrip hc
      have hyesc : ∀ c ∈ y, htmlEscapable c = false := fun c hc =>
        h c (mem_removeCtrl (hymem c hc)).1
      have hyctrl : ∀ c ∈ y, isStrippedCtrl c = false := fun c hc =>
        (mem_removeCtrl (hymem c hc)).2
      have e1 : htmlEscape y = y := htmlEscape_of_not_escapable hyesc
      have e2 : removeCtrl y = y := removeCtrl_of_none hyctrl
      have e3 : pyStrip y = y := by rw [hy, pyStrip_idempotent]
      simp [sanitize_text, hynil, e1, e2, e3]

/-- C3 witness: a concrete escapable-free string on which the amended
idempotence theorem applies. -/
theorem C3_sanitize_idempotent_witness :
    (∀ c ∈ lit "  hi there  ", htmlEscapable c = false) ∧
      sanitize_text (sanitize_text (lit "  hi there  ")) =
        sanitize_text (lit "  hi there  ") :=
  ⟨by decide, C3_sanitize_idempotent_of_no_escapable _ (by decide)⟩

-- =========================================================================
-- CLAIM C8 — retrying HTTP client
-- =========================================================================

/-- `post_json` including the 502 it raises on exhaustion, wrapping the
last attempt's error into the downstream-unavailable detail. -/
def post_json_exc (target : Target) (retries : Nat) (f : Nat → Except Str Json) :
    Except HExc Json × List Nat × Nat :=
  match post_json retries f with
  | (Except.ok v, s, n) => (Except.ok v, s, n)
  | (Except.error e, s, n) =>
      (Except.error ⟨502, ErrDetail.downstream target (ErrDetail.msg e)⟩, s, n)

theorem postJsonLoop_succ (f : Nat → Except Str Json) (fuel i : Nat) (last : Str) :
    postJsonLoop f (fuel + 1) i last =
      match f i with
      | Except.ok v => (Except.ok v, [], 1)
      | Except.error e =>
          ((postJsonLoop f fuel (i + 1) e).1,
           3 * (i + 1) :: (postJsonLoop f fuel (i + 1) e).2.1,
           (postJsonLoop f fuel (i + 1) e).2.2 + 1) := rfl

theorem postJsonLoop_all_fail (f : Nat → Except Str Json) (e : Nat → Str) :
    ∀ (n start : Nat) (last : Str),
      (∀ i, start ≤ i → i ≤ start + n → f i = Except.error (e i)) →
      postJsonLoop f (n + 1) start last =
        (Except.error (e (start + n)),
         (List.range' (start + 1) (n + 1)).map (fun i => 3 * i), n + 1) := by
  intro n
  induction n with
  | zero =>
      intro start last hf
      have hstart : f start = Except.error (e start) := hf start le_rfl (by omega)
      rw [postJsonLoop_succ, hstart]
      simp [postJsonLoop, List.range']
  | succ m ih =>
      intro start last hf
      have hstart : f start = Except.error (e start) := hf start le_rfl (by omega)
      have hrec := ih (start + 1) (e start)
        (fun i h1 h2 => hf i (by omega) (by omega))
      have harith : start + 1 + m = start + (m + 1) := by omega
      rw [harith] at hrec
      rw [postJsonLoop_succ, hstart]
      dsimp only
      rw [hrec]
      simp [List.range']

theorem postJsonLoop_success (f : Nat → Except Str Json) (e : Nat → Str) (v : Json) :
    ∀ (j n start : Nat) (last : Str), j ≤ n →
      f (start + j) = Except.ok v →
      (∀ i, start ≤ i → i < start + j → f i = Except.error (e i)) →
      postJsonLoop f (n + 1) start last =
        (Except.ok v, (List.range' (start + 1) j).map (fun i => 3 * i), j + 1) := by
  intro j
  induction j with
  | zero =>
      intro n start last _ hok _
      simp only [Nat.add_zero] at hok
      rw [postJsonLoop_succ, hok]
      simp [List.range']
  | succ k ih =>
      intro n start last hj hok hf
      have hstart : f start = Except.error (e start) := hf start le_rfl (by omega)
      cases n with
      | zero => omega
      | succ m =>
          have hrec := ih m (start + 1) (e start) (by omega)
            (by rw [show start + 1 + k = start + (k + 1) by omega]; exact hok)
            (fun i h1 h2 => hf i (by omega) (by omega))
          rw [postJsonLoop_succ, hstart]
          dsimp only
          rw [hrec]
          simp [List.range']

/-- C8: `HttpClient.post_json` makes exactly `retries + 1` attempts when
every attempt fails, sleeping base_delay times `attempt + 1` after each
failed attempt (so the sleep between consecutive attempts `i` and `i + 1`
is base_delay times `i + 1`, linearly increasing; the trace, in tenths of
a second with the 0.3 s base delay, is `3 * 1, ..., 3 * (retries + 1)`),
then fails with a single 502 downstream-unavailable error carrying the
last attempt's error.  A successful attempt `j` (all earlier ones having
failed) returns the parsed body immediately after `j + 1` attempts; any
exception or non-2xx status is just that attempt's error, retried
identically up to the cap. -/
theorem C8_post_json_retry_contract :
    (∀ (target : Target) (retries : Nat) (f : Nat → Except Str Json)
        (e : Nat → Str),
      (∀ i, i ≤ retries → f i = Except.error (e i)) →
      post_json_exc target retries f =
        (Except.error ⟨502, ErrDetail.downstream target (ErrDetail.msg (e retries))⟩,
         (List.range' 1 (retries + 1)).map (fun i => 3 * i), retries + 1)) ∧
    (∀ (target : Target) (retries : Nat) (f : Nat → Except Str Json)
        (e : Nat → Str) (j : Nat) (v : Json),
      j ≤ retries → f j = Except.ok v →
      (∀ i, i < j → f i = Except.error (e i)) →
      post_json_exc target retries f =
        (Except.ok v, (List.range' 1 j).map (fun i => 3 * i), j + 1)) := by
  constructor
  · intro target retries f e hf
    have h := postJsonLoop_all_fail f e retries 0 []
      (fun i h1 h2 => hf i (by omega))
    simp only [Nat.zero_add] at h
    simp [post_json_exc, post_json, h]
  · intro target retries f e j v hj hok hf
    have h := postJsonLoop_success f e v j retries 0 [] hj
      (by simpa using hok) (fun i h1 h2 => hf i (by omega))
    simp only [Nat.zero_add] at h
    simp [post_json_exc, post_json, h]

/-- C8 witness: a concrete always-failing call (three attempts, sleeps of
0.3 s, 0.6 s, 0.9 s, one 502 carrying the last error) and a concrete call
succeeding at the second attempt. -/
theorem C8_post_json_retry_witness :
    post_json_exc Target.skinAgent 2 (fun _ => Except.error (lit "boom")) =
      (Except.error ⟨502, ErrDetail.downstream Target.skinAgent
        (ErrDetail.msg (lit "boom"))⟩, [3, 6, 9], 3) ∧
    post_json_exc Target.skinAgent 2
        (fun i => if i = 1 then Except.ok (Json.obj []) else Except.error (lit "e")) =
      (Except.ok (Json.obj []), [3], 2) :=
  ⟨C8_post_json_retry_contract.1 Target.skinAgent 2 _ (fun _ => lit "boom")
      (fun i _ => rfl),
   C8_post_json_retry_contract.2 Target.skinAgent 2 _ (fun _ => lit "e") 1
      (Json.obj []) (by omega) rfl
      (fun i hi => by
        have hi0 : i = 0 := by omega
        subst hi0; rfl)⟩

-- =========================================================================
-- CLAIM C2 — invalid image handling
-- =========================================================================

/-- The response_type of a normal (non-exception) outcome. -/
def resultRespType : Except HExc AgentResponse → Option Str
  | Except.ok r => some r.response_type
  | Except.error _ => none

/-- The success flag of a normal (non-exception) outcome. -/
def resultSuccess : Except HExc AgentResponse → Option Bool
  | Except.ok r => some r.success
  | Except.error _ => none

/-- The error-payload type tag of a normal outcome, when present. -/
def resultErrorTypeTag : Except HExc AgentResponse → Option Str
  | Except.ok r =>
      (match r.error with
       | some eo =>
           (match jGet eo (lit "type") with
            | some (Json.str s) => some s
            | _ => none)
       | none => none)
  | Except.error _ => none

/-- A concrete image request for the C2 counterexample. -/
def reqC2 : SupervisorRequest :=
  ⟨none, some (lit "https://pics.example/a.jpg"), some (lit "u@example.com"),
   lit "u1", lit "c1", lit "image", lit "skin", []⟩

/-- A concrete invalid-image vision response for C2. -/
def visionInvalidC2 : Json :=
  Json.obj [(lit "is_valid", Json.bool false),
            (lit "validation_reason", Json.str (lit "blurry"))]

/-- C2 counterexample: on an invalid image the supervisor's envelope
response_type is the fixed string error (the invalid_image tag only
appears in the error payload), so the result does not carry response_type
invalid_image as claimed. -/
theorem C2_invalid_image_response_type_counterexample :
    resultRespType ((route_image_then_report reqC2 (Except.ok visionInvalidC2)
        (Json.obj []) (Except.ok (Json.obj []))).1) = some (lit "error") ∧
      lit "error" ≠ lit "invalid_image" :=
  ⟨rfl, by decide⟩

/-- C2 (amended): for every image turn whose vision response reports the
image invalid (is_valid falsy), the route returns a normal negative result
(no exception, success false) whose envelope response_type is error and
whose error payload type is invalid_image; no vision record, report or
metadata write is issued — the only effects are the vision call and one
bot transcript message, so the conversation state is unchanged. -/
theorem C2_invalid_image_normal_negative (req : SupervisorRequest) (v : Json)
    (fsMeta : Json) (report : Except Str Json)
    (h : pyTruthy (jGetD v (lit "is_valid") (Json.bool false)) = false) :
    resultSuccess ((route_image_then_report req (Except.ok v) fsMeta report).1)
        = some false ∧
    resultRespType ((route_image_then_report req (Except.ok v) fsMeta report).1)
        = some (lit "error") ∧
    resultErrorTypeTag ((route_image_then_report req (Except.ok v) fsMeta report).1)
        = some (lit "invalid_image") ∧
    ((route_image_then_report req (Except.ok v) fsMeta report).2).filter
        isConversationStateWrite = [] ∧
    ((route_image_then_report req (Except.ok v) fsMeta report).2).filter
        isBackendCall =
      [Effect.callBackend Target.visionAgent (Json.obj
        [(lit "image_url", optStrJson req.image_url),
         (lit "user_id", Json.str req.user_id),
         (lit "chat_id", Json.str req.chat_id),
         (lit "chat_type", Json.str req.speciality),
         (lit "message_type", Json.str (lit "image"))])] ∧
    ((route_image_then_report req (Except.ok v) fsMeta report).2).filter
        isBotMessage =
      [botMsgEffect req (mkErr req.chat_id
        (lit "Invalid image: " ++ pyStr (jGetD v (lit "validation_reason") (Json.str [])))
        (lit "invalid_image")
        (some (Json.obj
          [(lit "validation_reason", jGetD v (lit "validation_reason") (Json.str [])),
           (lit "error_type", Json.str (lit "image_validation_failed"))])))] := by
  simp [route_image_then_report, h, resultSuccess, resultRespType,
    resultErrorTypeTag, mkErr, jGet, isConversationStateWrite, isBackendCall,
    isBotMessage, botMsgEffect, List.filter]

/-- C2 witness: the amended theorem applied to the concrete invalid-image
turn. -/
theorem C2_invalid_image_normal_negative_witness :
    pyTruthy (jGetD visionInvalidC2 (lit "is_valid") (Json.bool false)) = false ∧
      resultSuccess ((route_image_then_report reqC2 (Except.ok visionInvalidC2)
        (Json.obj []) (Except.ok (Json.obj []))).1) = some false :=
  ⟨rfl, (C2_invalid_image_normal_negative reqC2 visionInvalidC2 (Json.obj [])
    (Except.ok (Json.obj [])) rfl).1⟩

-- =========================================================================
-- CLAIM C1 — crisis versus off-topic priority
-- =========================================================================

/-- The C1 counterexample message: it matches a crisis pattern (want to
die) and an off-topic pattern (weather). -/
def msgC1 : Str := lit "What is the weather? I want to die"

/-- C1 counterexample: a text message matching both an off-topic pattern
and a crisis pattern, admitted by the rate limiter and the injection
detector of a fresh enabled orchestrator, is rejected with error category
off_topic, not emergency — domain grounding runs before content
moderation and short-circuits it, so crisis detection is suppressed. -/
theorem C1_crisis_suppressed_by_grounding_counterexample :
    crisisHit (toLowerStr (pyStrip msgC1)) = true ∧
    nonMedicalHit (toLowerStr (pyStrip msgC1)) = true ∧
    (validate_input (SecurityOrchestrator.fresh true) 0 (lit "u1") msgC1
        (lit "text") (lit "skin") []).1 =
      (false, off_topic_response,
       Json.obj [(lit "error_type", Json.str (lit "off_topic"))]) :=
  ⟨by decide, by decide, rfl⟩

/-- C1 (amended): crisis detection wins only over the layers that run
after it.  For every enabled orchestrator and text message admitted by
the rate limiter and the injection detector, if the (stripped, nonempty)
message also passes domain grounding and matches a crisis pattern, then
`validate_input` rejects it with category emergency and the fixed
emergency-resources message — regardless of any off-topic pattern match,
length or repetition, since the crisis check is the moderator's first.
When domain grounding rejects the message first, the rejection is
off_topic (see the counterexample). -/
theorem C1_emergency_priority_after_grounding (o : SecurityOrchestrator)
    (now : ℚ) (user msg spec : Str) (hist : List Str)
    (hen : o.enabled = true)
    (hrate : ((o.rate_limiter.check now user (lit "text")).1).1 = true)
    (hinj : (detect (pyStrip msg)).1 = false)
    (hdom : (is_in_domain (pyStrip msg) spec hist).1 = true)
    (hcrisis : crisisHit (toLowerStr (pyStrip msg)) = true)
    (hne : pyStrip msg ≠ []) :
    (validate_input o now user msg (lit "text") spec hist).1 =
      (false, emergency_response,
       Json.obj [(lit "error_type", Json.str (lit "emergency"))]) := by
  have hmod : moderate (pyStrip msg) = (false, lit "emergency", emergency_response) := by
    simp [moderate, hne, hcrisis]
  simp [validate_input, hen, hrate, hinj, hdom, hmod]

/-- The C1 witness message: off-topic pattern (weather) plus crisis
pattern (hurt myself), in domain via the medical keyword hurt. -/
def msgC1W : Str := lit "The weather is bad and I want to hurt myself"

/-- C1 witness: the amended theorem applied to a concrete message that
matches an off-topic pattern and a crisis pattern yet passes grounding:
the rejection category is emergency. -/
theorem C1_emergency_priority_witness :
    crisisHit (toLowerStr (pyStrip msgC1W)) = true ∧
    nonMedicalHit (toLowerStr (pyStrip msgC1W)) = true ∧
    (is_in_domain (pyStrip msgC1W) (lit "skin") []).1 = true ∧
    (validate_input (SecurityOrchestrator.fresh true) 0 (lit "u1") msgC1W
        (lit "text") (lit "skin") []).1 =
      (false, emergency_response,
       Json.obj [(lit "error_type", Json.str (lit "emergency"))]) :=
  ⟨by decide, by decide, by decide,
   C1_emergency_priority_after_grounding (SecurityOrchestrator.fresh true) 0
     (lit "u1") msgC1W (lit "skin") [] rfl rfl (by decide) (by decide)
     (by decide) (by decide)⟩

-- =========================================================================
-- CLAIM C5 — grounding on established conversation context
-- =========================================================================

/-- C5 (amended): once the LAST TEN history messages contain a
medical-keyword token, `is_in_domain` accepts any subsequent reply with at
most twenty distinct tokens regardless of its content: the context
analyzer reports established context and the short-reply disjunct of
signal 5 fires (and every earlier signal already accepts). -/
theorem C5_established_context (hist : List Str) (spec msg : Str)
    (hmed : ((runsBy isLowerAlpha (toLowerStr (joinSpace
        (hist.drop (hist.length - 10))))).dedup).any (· ∈ MEDICAL_KEYWORDS) = true)
    (hlen : (tokenSet msg).length ≤ 20) :
    (is_in_domain msg spec hist).1 = true := by
  have hne : hist ≠ [] := by
    intro h0
    subst h0
    exact absurd hmed (by decide)
  have hctx : analyzeConversationContext hist spec = true := by
    simp only [analyzeConversationContext, if_neg hne]
    simp [hmed]
  by_cases hmsg : msg = []
  · simp [is_in_domain, hmsg]
  · simp only [is_in_domain, if_neg hmsg]
    simp only [tokenSet] at hlen
    split_ifs with h1 h2 h3 h4 h5 h6 <;> try rfl
    · exact absurd ⟨hne, hctx, Or.inl hlen⟩ h5

/-- The C5 counterexample history: a medical keyword in the oldest of
eleven messages, so it falls outside the analyzer's ten-message window. -/
def histC5 : List Str := lit "rash" :: List.replicate 10 (lit "hello")

/-- C5 counterexample: a history containing a medical-keyword token
(in the message before the last ten) followed by a one-token reply that
`is_in_domain` nevertheless rejects — the context analyzer only reads the
last ten messages, so the claim fails as universally stated. -/
theorem C5_context_window_counterexample :
    histC5.any (fun m => (tokenSet m).any (· ∈ MEDICAL_KEYWORDS)) = true ∧
    (tokenSet (lit "qqq")).length ≤ 20 ∧
    (is_in_domain (lit "qqq") (lit "skin") histC5).1 = false :=
  ⟨by decide, by decide, by decide⟩

/-- C5 witness: the spec's own example — history of one message with a
rash keyword, reply yes — is accepted via the amended theorem. -/
theorem C5_established_context_witness :
    ((runsBy isLowerAlpha (toLowerStr (joinSpace
        (([lit "I have a rash on my arm"] : List Str).drop
          (([lit "I have a rash on my arm"] : List Str).length - 10))))).dedup).any
        (· ∈ MEDICAL_KEYWORDS) = true ∧
    (is_in_domain (lit "yes") (lit "skin") [lit "I have a rash on my arm"]).1 = true :=
  ⟨by decide, C5_established_context [lit "I have a rash on my arm"]
    (lit "skin") (lit "yes") (by decide) (by decide)⟩

-- =========================================================================
-- CLAIM C4 — sliding-window rate limiting
-- =========================================================================

theorem limitsFor_pos (k : Str) : 0 < (limitsFor k).1 := by
  unfold limitsFor
  split_ifs <;> norm_num

theorem check_accept (rl : RateLimiter) (now : ℚ) (u k : Str)
    (hkeep : ∀ a ∈ rl.bucket (u, k), now - a < (limitsFor k).2)
    (hlen : (rl.bucket (u, k)).length < (limitsFor k).1) :
    rl.check now u k = ((true, []),
      ⟨fun key => if key = (u, k) then rl.bucket (u, k) ++ [now]
                  else rl.bucket key⟩) := by
  have hfil : (rl.bucket (u, k)).filter (fun t => decide (now - t < (limitsFor k).2))
      = rl.bucket (u, k) :=
    List.filter_eq_self.mpr (fun a ha => by simpa using hkeep a ha)
  unfold RateLimiter.check
  simp only [hfil]
  rw [if_neg (by omega)]

theorem runChecks_all_accepted (u k : Str) :
    ∀ (ts : List ℚ) (rl : RateLimiter),
      (rl.bucket (u, k)).length + ts.length ≤ (limitsFor k).1 →
      List.Pairwise (fun a b => b - a < (limitsFor k).2) (rl.bucket (u, k) ++ ts) →
      (rl.runChecks u k ts).2 = List.replicate ts.length true ∧
        ((rl.runChecks u k ts).1).bucket (u, k) = rl.bucket (u, k) ++ ts := by
  intro ts
  induction ts with
  | nil =>
      intro rl _ _
      simp [RateLimiter.runChecks]
  | cons t ts ih =>
      intro rl hlen hpw
      rw [List.pairwise_append] at hpw
      obtain ⟨hpw1, hpw2, hcross⟩ := hpw
      have hkeep : ∀ a ∈ rl.bucket (u, k), t - a < (limitsFor k).2 :=
        fun a ha => hcross a ha t (List.mem_cons_self t ts)
      have hlt : (rl.bucket (u, k)).length < (limitsFor k).1 := by
        simp at hlen; omega
      have hcheck := check_accept rl t u k hkeep hlt
      set rl' : RateLimiter :=
        ⟨fun key => if key = (u, k) then rl.bucket (u, k) ++ [t]
                    else rl.bucket key⟩ with hrl'
      have hb' : rl'.bucket (u, k) = rl.bucket (u, k) ++ [t] := by
        rw [hrl']; simp
      have hrec := ih rl' (by rw [hb']; simp at hlen ⊢; omega)
        (by
          rw [hb', List.append_assoc]
          rw [List.pairwise_append]
          refine ⟨hpw1, ?_, ?_⟩
          · simpa using hpw2
          · intro a ha b hb
            exact hcross a ha b (by simpa using hb))
      simp only [RateLimiter.runChecks, hcheck]
      refine ⟨?_, ?_⟩
      · simp only [List.replicate, hrec.1]
      · rw [hrec.2, hb', List.append_assoc]
        rfl

theorem check_reject (rl : RateLimiter) (now : ℚ) (u k : Str)
    (hkeep : ∀ a ∈ rl.bucket (u, k), now - a < (limitsFor k).2)
    (hlen : (limitsFor k).1 ≤ (rl.bucket (u, k)).length) :
    rl.check now u k = ((false, rateLimitMsg (pyInt
        ((limitsFor k).2 - (now - (rl.bucket (u, k)).headI)))),
      ⟨fun key => if key = (u, k) then rl.bucket (u, k) else rl.bucket key⟩) := by
  have hfil : (rl.bucket (u, k)).filter (fun t => decide (now - t < (limitsFor k).2))
      = rl.bucket (u, k) :=
    List.filter_eq_self.mpr (fun a ha => by simpa using hkeep a ha)
  unfold RateLimiter.check
  simp only [hfil]
  rw [if_pos hlen]

theorem check_accept_general (rl : RateLimiter) (now : ℚ) (u k : Str)
    (h : ((rl.bucket (u, k)).filter
        (fun t => decide (now - t < (limitsFor k).2))).length < (limitsFor k).1) :
    (rl.check now u k).1.1 = true ∧
    ((rl.check now u k).2).bucket (u, k) =
      (rl.bucket (u, k)).filter (fun t => decide (now - t < (limitsFor k).2))
        ++ [now] := by
  unfold RateLimiter.check
  rw [if_neg (by omega)]
  exact ⟨rfl, by simp⟩

/-- C4: for every identity and kind, starting from a fresh limiter, a
full window of `limit` checks at times within one window of the final
check time are all accepted; the next check within the window is rejected
with the message reporting the truncated seconds until the oldest
timestamp expires; and a subsequent check made once the window has
elapsed from the oldest accepted request is accepted, the state holding
the surviving timestamps with the new time appended. -/
theorem C4_rate_limit_window (u k : Str) (ts : List ℚ) (now now2 : ℚ)
    (hlen : ts.length = (limitsFor k).1)
    (hmem : ∀ t ∈ ts, ts.headI ≤ t ∧ t ≤ now)
    (hwin : now - ts.headI < (limitsFor k).2)
    (hexp : (limitsFor k).2 ≤ now2 - ts.headI) :
    (RateLimiter.fresh.runChecks u k ts).2 = List.replicate ts.length true ∧
    (((RateLimiter.fresh.runChecks u k ts).1).check now u k).1 =
      (false, rateLimitMsg (pyInt ((limitsFor k).2 - (now - ts.headI)))) ∧
    ((((RateLimiter.fresh.runChecks u k ts).1).check now u k).2.check now2 u k).1.1
      = true ∧
    (((((RateLimiter.fresh.runChecks u k ts).1).check now u k).2.check now2 u k).2).bucket
        (u, k) =
      (ts.filter (fun t => now2 - t < (limitsFor k).2)) ++ [now2] := by
  have hne : ts ≠ [] := by
    intro h0
    have := limitsFor_pos k
    rw [h0] at hlen
    simp at hlen
    omega
  have hpw : List.Pairwise (fun a b => b - a < (limitsFor k).2)
      (RateLimiter.fresh.bucket (u, k) ++ ts) := by
    show List.Pairwise _ ([] ++ ts)
    rw [List.nil_append]
    apply List.pairwise_of_forall_mem_list
    intro a ha b hb
    have h1 := (hmem a ha).1
    have h2 := (hmem b hb).2
    linarith
  have hall := runChecks_all_accepted u k ts RateLimiter.fresh
    (by simp [RateLimiter.fresh, hlen]) hpw
  have hb1 : ((RateLimiter.fresh.runChecks u k ts).1).bucket (u, k) = ts := by
    rw [hall.2]; rfl
  have hkeep : ∀ a ∈ ((RateLimiter.fresh.runChecks u k ts).1).bucket (u, k),
      now - a < (limitsFor k).2 := by
    rw [hb1]
    intro a ha
    have h1 := (hmem a ha).1
    linarith
  have hrej := check_reject ((RateLimiter.fresh.runChecks u k ts).1) now u k hkeep
    (by rw [hb1]; omega)
  have hb2 : ((((RateLimiter.fresh.runChecks u k ts).1).check now u k).2).bucket
      (u, k) = ts := by
    rw [hrej]
    simpa using hb1
  obtain ⟨a, ts2, hts⟩ := List.exists_cons_of_ne_nil hne
  have hheadI : ts.headI = a := by rw [hts]; rfl
  have hfail : decide (now2 - a < (limitsFor k).2) = false := by
    rw [hheadI] at hexp
    simp
    linarith
  have hlen2 : (ts.filter (fun t => decide (now2 - t < (limitsFor k).2))).length
      < (limitsFor k).1 := by
    have hkept2 : ts.filter (fun t => decide (now2 - t < (limitsFor k).2))
        = ts2.filter (fun t => decide (now2 - t < (limitsFor k).2)) := by
      rw [hts, List.filter_cons, hfail]
      simp
    rw [hkept2]
    have h1 : (ts2.filter (fun t => decide (now2 - t < (limitsFor k).2))).length
        ≤ ts2.length := List.length_filter_le _ _
    have h2 : ts.length = ts2.length + 1 := by rw [hts]; rfl
    omega
  have hacc := check_accept_general
    ((((RateLimiter.fresh.runChecks u k ts).1).check now u k).2) now2 u k
    (by rw [hb2]; exact hlen2)
  refine ⟨hall.1, ?_, hacc.1, ?_⟩
  · rw [hrej, hb1]
  · rw [hacc.2, hb2]

/-- C4 witness: five image-kind checks at seconds 0..4 fill the 5-per-hour
window; a sixth at second 10 is rejected with a 3590-second wait message;
a check at second 3600 (one window past the oldest) is accepted. -/
theorem C4_rate_limit_window_witness :
    (((RateLimiter.fresh.runChecks (lit "u") (lit "image")
        [0, 1, 2, 3, 4]).1).check 10 (lit "u") (lit "image")).1 =
      (false, rateLimitMsg (pyInt ((limitsFor (lit "image")).2 -
        (10 - ([0, 1, 2, 3, 4] : List ℚ).headI)))) ∧
    ((((RateLimiter.fresh.runChecks (lit "u") (lit "image")
        [0, 1, 2, 3, 4]).1).check 10 (lit "u") (lit "image")).2.check 3600
        (lit "u") (lit "image")).1.1 = true := by
  have hlim : limitsFor (lit "image") = (5, (3600 : ℚ)) := rfl
  have h := C4_rate_limit_window (lit "u") (lit "image") [0, 1, 2, 3, 4] 10 3600
    (by rw [hlim]; rfl)
    (by
      intro t ht
      fin_cases ht <;> constructor <;> norm_num [List.headI])
    (by rw [hlim]; norm_num [List.headI])
    (by rw [hlim]; norm_num [List.headI])
  exact ⟨h.2.1, h.2.2.1⟩

-- =========================================================================
-- CLAIM C9 — rate limiter state invariant
-- =========================================================================

theorem limitsFor_window_pos (k : Str) : (0 : ℚ) < (limitsFor k).2 := by
  unfold limitsFor
  split_ifs <;> norm_num

/-- C9: after every check, the list stored for the checked key holds only
timestamps strictly younger than the kind's window measured at the call
time (the trim enforces it and the appended current time is trivially
fresh); and in every state reachable from the fresh limiter, every key's
list length is at most its kind's configured limit (a rejected check only
trims, an accepted one appends only below the limit). -/
theorem C9_rate_limiter_invariant :
    (∀ (rl : RateLimiter) (now : ℚ) (u k : Str),
      ∀ t ∈ ((rl.check now u k).2).bucket (u, k), now - t < (limitsFor k).2) ∧
    (∀ rl : RateLimiter, RLReachable rl →
      ∀ (u k : Str), (rl.bucket (u, k)).length ≤ (limitsFor k).1) := by
  constructor
  · intro rl now u k t ht
    have hWpos : (0 : ℚ) < (limitsFor k).2 := limitsFor_window_pos k
    simp only [RateLimiter.check] at ht
    split_ifs at ht with h
    · simp only [if_pos rfl] at ht
      simpa using (List.mem_filter.mp ht).2
    · simp only [if_pos rfl] at ht
      rcases List.mem_append.mp ht with h1 | h2
      · simpa using (List.mem_filter.mp h1).2
      · have : t = now := by simpa using h2
        subst this
        simpa using hWpos
  · intro rl hr
    induction hr with
    | start => intro u k; simp [RateLimiter.fresh]
    | step rl0 now u0 k0 hr0 ih =>
        intro u k
        simp only [RateLimiter.check]
        split_ifs with h
        · by_cases hk : ((u, k) : Str × Str) = (u0, k0)
          · simp only [if_pos hk]
            have hkk : k = k0 := (Prod.mk.injEq _ _ _ _ ▸ hk).2
            calc ((rl0.bucket (u0, k0)).filter _).length
                ≤ (rl0.bucket (u0, k0)).length := List.length_filter_le _ _
              _ ≤ (limitsFor k0).1 := ih u0 k0
              _ = (limitsFor k).1 := by rw [hkk]
          · simp only [if_neg hk]
            exact ih u k
        · by_cases hk : ((u, k) : Str × Str) = (u0, k0)
          · simp only [if_pos hk]
            have hkk : k = k0 := (Prod.mk.injEq _ _ _ _ ▸ hk).2
            rw [List.length_append]
            simp only [List.length_singleton]
            have := Nat.lt_of_not_le (fun hc => h hc)
            rw [hkk]
            omega
          · simp only [if_neg hk]
            exact ih u k

/-- C9 witness: the invariant at the fresh limiter and across one
concrete check. -/
theorem C9_rate_limiter_invariant_witness :
    (RateLimiter.fresh.bucket (lit "u", lit "text")).length
        ≤ (limitsFor (lit "text")).1 ∧
    (∀ t ∈ ((RateLimiter.fresh.check 0 (lit "u") (lit "text")).2).bucket
        (lit "u", lit "text"), (0 : ℚ) - t < (limitsFor (lit "text")).2) ∧
    (((RateLimiter.fresh.check 0 (lit "u") (lit "text")).2).bucket
        (lit "u", lit "text")).length ≤ (limitsFor (lit "text")).1 :=
  ⟨C9_rate_limiter_invariant.2 RateLimiter.fresh RLReachable.start
      (lit "u") (lit "text"),
   C9_rate_limiter_invariant.1 RateLimiter.fresh 0 (lit "u") (lit "text"),
   C9_rate_limiter_invariant.2 _
     (RLReachable.step RateLimiter.fresh 0 (lit "u") (lit "text")
       RLReachable.start) (lit "u") (lit "text")⟩

-- =========================================================================
-- CLAIM C10 — orchestrator metrics invariant
-- =========================================================================

/-- Total of the blocked-by-reason histogram. -/
def sumCounts : List (Str × Nat) → Nat
  | [] => 0
  | (_, n) :: t => n + sumCounts t

theorem bumpReason_sum (l : List (Str × Nat)) (k : Str) :
    sumCounts (bumpReason l k) = sumCounts l + 1 := by
  induction l with
  | nil => rfl
  | cons a t ih =>
      obtain ⟨s, n⟩ := a
      by_cases h : s = k <;> simp [bumpReason, h, sumCounts, ih] <;> omega

theorem validate_input_metrics_step (o : SecurityOrchestrator) (now : ℚ)
    (u m rt sp : Str) (hist : List Str)
    (h1 : sumCounts o.metrics.reasons = o.metrics.blocked)
    (h2 : o.metrics.blocked ≤ o.metrics.total) :
    sumCounts ((validate_input o now u m rt sp hist).2).metrics.reasons
        = ((validate_input o now u m rt sp hist).2).metrics.blocked ∧
      ((validate_input o now u m rt sp hist).2).metrics.blocked
        ≤ ((validate_input o now u m rt sp hist).2).metrics.total := by
  simp only [validate_input]
  split_ifs <;>
    simp_all [trackBlock, bumpReason_sum] <;>
    omega

/-- C10: in every orchestrator state reachable by `validate_input` calls,
the blocked counter equals the sum of the per-reason histogram counts
(each rejection bumps both together) and never exceeds the total counter
(incremented once per call); and the block-rate denominator
`max(total, 1)` used by `get_metrics` is positive, so the division never
divides by zero. -/
theorem C10_metrics_invariant :
    (∀ o : SecurityOrchestrator, OrchReachable o →
      sumCounts o.metrics.reasons = o.metrics.blocked ∧
        o.metrics.blocked ≤ o.metrics.total) ∧
    (∀ m : Metrics, (0 : ℚ) < ((max m.total 1 : ℕ) : ℚ)) := by
  constructor
  · intro o hr
    induction hr with
    | start enabled => exact ⟨rfl, le_refl 0⟩
    | step o now u m rt sp h hr0 ih =>
        exact validate_input_metrics_step o now u m rt sp h ih.1 ih.2
  · intro m
    have : 1 ≤ max m.total 1 := le_max_right _ _
    exact_mod_cast Nat.lt_of_lt_of_le Nat.zero_lt_one this

/-- C10 witness: the invariant after one concrete rejected call on a
fresh orchestrator, and its positive block-rate denominator. -/
theorem C10_metrics_invariant_witness :
    (sumCounts ((validate_input (SecurityOrchestrator.fresh true) 0 (lit "u")
        msgC1 (lit "text") (lit "skin") []).2).metrics.reasons
      = ((validate_input (SecurityOrchestrator.fresh true) 0 (lit "u")
        msgC1 (lit "text") (lit "skin") []).2).metrics.blocked) ∧
    (0 : ℚ) < ((max ((validate_input (SecurityOrchestrator.fresh true) 0 (lit "u")
        msgC1 (lit "text") (lit "skin") []).2).metrics.total 1 : ℕ) : ℚ) :=
  ⟨(C10_metrics_invariant.1 _
      (OrchReachable.step (SecurityOrchestrator.fresh true) 0 (lit "u") msgC1
        (lit "text") (lit "skin") [] (OrchReachable.start true))).1,
   C10_metrics_invariant.2 _⟩

-- =========================================================================
-- CLAIMS C6 and C7 — transcript logging and rejected-turn isolation
-- =========================================================================

/-- C7: a text turn rejected by `SecurityOrchestrator.validate_input`
reaches no downstream backend and persists no conversation state for the
turn — its effect trace contains no backend call and no metadata, vision
or report write (only the transcript appends), and the caller receives a
normal error response rather than an exception. -/
theorem C7_rejected_turn_no_partial_state (env : Env) (now : ℚ)
    (o : SecurityOrchestrator) (req : SupervisorRequest)
    (tb vb : Except Str Json) (fsMeta : Json) (rb : Except Str Json)
    (htext : req.reqType = lit "text")
    (hmsg : pyTruthy (optStrJson req.message) = true)
    (hrej : ((validate_input o now req.user_id (req.message.getD [])
        req.reqType req.speciality (req.history.map (fun t => t.content))).1).1
      = false) :
    ((main_entry env now o req tb vb fsMeta rb).2.2).filter isBackendCall = [] ∧
    ((main_entry env now o req tb vb fsMeta rb).2.2).filter
        isConversationStateWrite = [] ∧
    resultSuccess (main_entry env now o req tb vb fsMeta rb).1 = some false := by
  have hne : (lit "text" : Str) ≠ lit "image" := by decide
  rw [htext] at hrej
  simp [main_entry, validate_payload, htext, hmsg, hne, hrej, userMsgEffect,
    botMsgEffect, isBackendCall, isConversationStateWrite, resultSuccess,
    mkErr, List.filter]

/-- C6 (amended): a text turn rejected by security validation is logged
as a bot message to the transcript store; but a downstream failure after
retry exhaustion propagates as the 502 HTTPException re-raised by the
entry point with NO bot message logged — only the user message is
persisted for such turns, so the transcript is not a complete record of
downstream-failure outcomes. -/
theorem C6_transcript_logging (env : Env) (now : ℚ)
    (o : SecurityOrchestrator) (req : SupervisorRequest)
    (tb vb : Except Str Json) (fsMeta : Json) (rb : Except Str Json)
    (htext : req.reqType = lit "text")
    (hmsg : pyTruthy (optStrJson req.message) = true) :
    (((validate_input o now req.user_id (req.message.getD []) (lit "text")
        req.speciality (req.history.map (fun t => t.content))).1).1 = false →
      ((main_entry env now o req tb vb fsMeta rb).2.2).any isBotMessage = true) ∧
    (∀ e : Str, ((validate_input o now req.user_id (req.message.getD [])
        (lit "text") req.speciality
        (req.history.map (fun t => t.content))).1).1 = true →
      tb = Except.error e →
      (main_entry env now o req tb vb fsMeta rb).1 =
        Except.error ⟨502, ErrDetail.downstream (agentTargetFor req.speciality)
          (ErrDetail.downstream (agentTargetFor req.speciality)
            (ErrDetail.msg e))⟩ ∧
      ((main_entry env now o req tb vb fsMeta rb).2.2).any isBotMessage = false) := by
  have hne : (lit "text" : Str) ≠ lit "image" := by decide
  constructor
  · intro hrej
    simp [main_entry, validate_payload, htext, hmsg, hne, hrej, userMsgEffect,
      botMsgEffect, isBotMessage]
  · intro e hadm htb
    subst htb
    simp [main_entry, validate_payload, htext, hmsg, hne, hadm, route_text,
      userMsgEffect, botMsgEffect, isBotMessage]
    decide

def envDefault : Env := ⟨fun _ => (true, [])⟩

def reqC7 : SupervisorRequest :=
  ⟨some (lit "How do I fix my computer?"), none, some (lit "u@example.com"),
   lit "u1", lit "c1", lit "text", lit "skin", []⟩

def reqC6b : SupervisorRequest :=
  ⟨some (lit "I have a rash on my arm"), none, some (lit "u@example.com"),
   lit "u1", lit "c1", lit "text", lit "skin", []⟩

/-- C7 witness: a concrete off-topic turn is rejected and produces no
backend call. -/
theorem C7_rejected_turn_no_partial_state_witness :
    ((validate_input (SecurityOrchestrator.fresh true) 0 reqC7.user_id
        (reqC7.message.getD []) reqC7.reqType reqC7.speciality
        (reqC7.history.map (fun t => t.content))).1).1 = false ∧
    ((main_entry envDefault 0 (SecurityOrchestrator.fresh true) reqC7
        (Except.ok (Json.obj [])) (Except.ok (Json.obj [])) (Json.obj [])
        (Except.ok (Json.obj []))).2.2).filter isBackendCall = [] :=
  ⟨by decide,
   (C7_rejected_turn_no_partial_state envDefault 0 (SecurityOrchestrator.fresh true)
      reqC7 (Except.ok (Json.obj [])) (Except.ok (Json.obj [])) (Json.obj [])
      (Except.ok (Json.obj [])) rfl rfl (by decide)).1⟩

/-- C6 witness: a concrete rejected turn is bot-logged; a concrete
admitted turn whose text backend fails surfaces the 502 with no bot
message. -/
theorem C6_transcript_logging_witness :
    ((main_entry envDefault 0 (SecurityOrchestrator.fresh true) reqC7
        (Except.ok (Json.obj [])) (Except.ok (Json.obj [])) (Json.obj [])
        (Except.ok (Json.obj []))).2.2).any isBotMessage = true ∧
    (main_entry envDefault 0 (SecurityOrchestrator.fresh true) reqC6b
        (Except.error (lit "boom")) (Except.ok (Json.obj [])) (Json.obj [])
        (Except.ok (Json.obj []))).1 =
      Except.error ⟨502, ErrDetail.downstream Target.skinAgent
        (ErrDetail.downstream Target.skinAgent (ErrDetail.msg (lit "boom")))⟩ ∧
    ((main_entry envDefault 0 (SecurityOrchestrator.fresh true) reqC6b
        (Except.error (lit "boom")) (Except.ok (Json.obj [])) (Json.obj [])
        (Except.ok (Json.obj []))).2.2).any isBotMessage = false :=
  ⟨(C6_transcript_logging envDefault 0 (SecurityOrchestrator.fresh true) reqC7
      (Except.ok (Json.obj [])) (Except.ok (Json.obj [])) (Json.obj [])
      (Except.ok (Json.obj [])) rfl rfl).1 (by decide),
   ((C6_transcript_logging envDefault 0 (SecurityOrchestrator.fresh true) reqC6b
      (Except.error (lit "boom")) (Except.ok (Json.obj [])) (Json.obj [])
      (Except.ok (Json.obj [])) rfl rfl).2 (lit "boom") (by decide) rfl).1,
   ((C6_transcript_logging envDefault 0 (SecurityOrchestrator.fresh true) reqC6b
      (Except.error (lit "boom")) (Except.ok (Json.obj [])) (Json.obj [])
      (Except.ok (Json.obj [])) rfl rfl).2 (lit "boom") (by decide) rfl).2⟩

/-- C6 counterexample: a concrete admitted text turn whose backend call
fails after retry exhaustion ends as an exception (no normal response),
with a transcript containing the user message but NO bot message — the
downstream failure is not logged, refuting the claim that every
downstream failure is logged as a bot message. -/
theorem C6_downstream_failure_unlogged_counterexample :
    resultSuccess (main_entry envDefault 0 (SecurityOrchestrator.fresh true)
        reqC6b (Except.error (lit "boom")) (Except.ok (Json.obj [])) (Json.obj [])
        (Except.ok (Json.obj []))).1 = none ∧
    ((main_entry envDefault 0 (SecurityOrchestrator.fresh true) reqC6b
        (Except.error (lit "boom")) (Except.ok (Json.obj [])) (Json.obj [])
        (Except.ok (Json.obj []))).2.2).any isBotMessage = false ∧
    ((main_entry envDefault 0 (SecurityOrchestrator.fresh true) reqC6b
        (Except.error (lit "boom")) (Except.ok (Json.obj [])) (Json.obj [])
        (Except.ok (Json.obj []))).2.2).any isTranscriptEffect = true := by
  refine ⟨?_, by decide, by decide⟩
  rfl
